import Mathlib

/-!
Verification of the in-memory keydir of hrobeers/bitcask
(src/c_src/bitcask_keydir.c) against its natural-language specification.

The embedding models one hash chain of the keydir: all keys of interest
hash to the same base page (bucket selection by murmur3 is orthogonal to
every claim, and the murmurhash source is not part of the repository
under scrutiny).  The chain's pages are represented by their virtual byte
stream: byte position p lives on page p / PAGE_SIZE at in-page offset
p % PAGE_SIZE, exactly the mapping the C iterator uses
(scan_get_field: idx = chain_ofs / PAGE_SIZE, ofs = chain_ofs % PAGE_SIZE,
then iter->pages[idx].page->data + ofs).  Pointers into a page's data
therefore correspond to stream positions, and every in-bounds C memory
access is reproduced exactly.  Loops are embedded with an explicit fuel
argument so that all definitions are structural and kernel-evaluable; the
fuel passed at every call site strictly exceeds the number of iterations
the C loop can perform there (each iteration consumes at least one byte
of the key, or at least one entry of the chain), so fuel exhaustion is
unreachable in any modelled execution.

Mutexes, reference counts, the murmur hash, the NIF glue and the
free/teardown code are not modelled: no claim is about them.  Sequential
executions are modelled, so each CAS succeeds on its first attempt and
the atomic epoch increment is a plain increment.
-/

/-! ## Constants (entry layout, page size, sentinels)

The field offsets are the ENTRY_*_OFFSET defines of bitcask_keydir.c.
MAX_PAGE_IDX, MAX_OFFSET, MAX_FILE_ID and MAX_EPOCH come from the header
bitcask_keydir.h, which is not under src/; modelled from the spec: the
spec calls MAX_PAGE_IDX the sentinel index, MAX_OFFSET the tombstone
marker and MAX_EPOCH the "no snapshot" value, i.e. the uint32/uint64
maxima used with those C types. -/

def ENTRY_FILE_ID_OFFSET : Nat := 0
def ENTRY_TOTAL_SIZE_OFFSET : Nat := 4
def ENTRY_EPOCH_OFFSET : Nat := 8
def ENTRY_OFFSET_OFFSET : Nat := 16
def ENTRY_TIMESTAMP_OFFSET : Nat := 24
def ENTRY_NEXT_OFFSET : Nat := 28
def ENTRY_KEY_SIZE_OFFSET : Nat := 32
def ENTRY_KEY_OFFSET : Nat := 36

def PAGE_SIZE : Nat := 4096

def MAX_PAGE_IDX : Nat := 2 ^ 32 - 1
def MAX_FILE_ID : Nat := 2 ^ 32 - 1
def MAX_OFFSET : Nat := 2 ^ 64 - 1
def MAX_EPOCH : Nat := 2 ^ 64 - 1

/-! ## Byte store

A chain's virtual byte stream is a function from byte position to byte
value.  Multi-byte fields are stored little-endian, as on the x86 targets
the C code is written for; the code always reads a field with the same
width and position it was written with, so the byte order never matters
to the logic, only to the byte-level key claims. -/

def readBytes (d : Nat → Nat) : Nat → Nat → List Nat
  | _, 0 => []
  | off, n + 1 => d off :: readBytes d (off + 1) n

def decodeLE : List Nat → Nat
  | [] => 0
  | b :: bs => b + 256 * decodeLE bs

def encodeLE : Nat → Nat → List Nat
  | 0, _ => []
  | n + 1, v => v % 256 :: encodeLE n (v / 256)

def writeBytes (d : Nat → Nat) (off : Nat) (bs : List Nat) : Nat → Nat :=
  fun i => if off ≤ i ∧ i < off + bs.length then bs.getD (i - off) 0 else d i

def read32 (d : Nat → Nat) (off : Nat) : Nat := decodeLE (readBytes d off 4)

def read64 (d : Nat → Nat) (off : Nat) : Nat := decodeLE (readBytes d off 8)

def write32 (d : Nat → Nat) (off v : Nat) : Nat → Nat := writeBytes d off (encodeLE 4 v)

def write64 (d : Nat → Nat) (off v : Nat) : Nat → Nat := writeBytes d off (encodeLE 8 v)

/-- entry_size_for_key: (ENTRY_KEY_OFFSET + key_size + 7) & ~7u in uint32
arithmetic; clearing the low three bits is division and multiplication
by 8. -/
def entry_size_for_key (key_size : Nat) : Nat :=
  let unpadded_size := (ENTRY_KEY_OFFSET + key_size) % 2 ^ 32
  (unpadded_size + 7) % 2 ^ 32 / 8 * 8

/-! ## Key comparison (scan_keys_equal)

The C code compares with strncmp, which compares byte by byte but stops
as soon as it has compared a pair of equal zero bytes.  strncmpEq a b
models strncmp(a, b, n) == 0 where a and b are the n-byte slices read
from memory. -/

def strncmpEq : List Nat → List Nat → Bool
  | [], _ => true
  | _, [] => true
  | a :: as, b :: bs => if a ≠ b then false else if a = 0 then true else strncmpEq as bs

/-- Loop of scan_keys_equal.  Faithful to the source: the probe pointer
key is never advanced past the start of the key (the source compares key
from its beginning in every iteration), the stored-key pointer entry_key
is only re-seated by the for-loop update expression, which runs after
each body, so the first loop body compares against the same stream
position the pre-loop comparison used, and the clamped len persists
between iterations. -/
def ske_loop (key : List Nat) (d : Nat → Nat) :
    Nat → Nat → Nat → Nat → Nat → Bool
  | 0, _, _, _, _ => true
  | fuel + 1, remaining, len, entryPos, pageIdx =>
    if remaining > 0 then
      let len' := if len > remaining then remaining else len
      if strncmpEq (key.take len') (readBytes d entryPos len') then
        ske_loop key d fuel (remaining - len') len' ((pageIdx + 1) * PAGE_SIZE) (pageIdx + 1)
      else false
    else true

/-- scan_keys_equal: compare the probe key against the bytes stored at
the entry the iterator points to.  iterOffset is the iterator's offset
along the chain stream. -/
def scan_keys_equal (key : List Nat) (key_size : Nat) (d : Nat → Nat)
    (iterOffset : Nat) : Bool :=
  let offset := iterOffset + ENTRY_KEY_OFFSET
  let page_offset := offset % PAGE_SIZE
  let page_idx := offset / PAGE_SIZE
  let remaining := key_size
  let len := if PAGE_SIZE - page_offset > remaining then remaining else PAGE_SIZE - page_offset
  if strncmpEq (key.take len) (readBytes d offset len) then
    ske_loop key d (key_size + 1) (remaining - len) PAGE_SIZE offset page_idx
  else false

/-! ## Key write (scan_set_key)

Faithful to the source: the loop advances the source pointer and the page
index, but the destination pointer dst is never re-seated, so every
section after the first is copied over the first page's slice again. -/

def ssk_loop (key : List Nat) (dstPos : Nat) :
    Nat → (Nat → Nat) → Nat → Nat → Nat → Nat
  | 0, d, _, _ => d
  | fuel + 1, d, srcIdx, remainder =>
    if remainder > 0 then
      let section_size := if remainder > PAGE_SIZE then PAGE_SIZE else remainder
      let d' := writeBytes d dstPos ((key.drop srcIdx).take section_size)
      ssk_loop key dstPos fuel d' (srcIdx + section_size) (remainder - section_size)
    else d

def scan_set_key (d : Nat → Nat) (iterOffset : Nat) (key : List Nat)
    (key_size : Nat) : Nat → Nat :=
  let key_offset := iterOffset + ENTRY_KEY_OFFSET
  let page_idx := key_offset / PAGE_SIZE
  let page_offset := key_offset % PAGE_SIZE
  let space_in_page := PAGE_SIZE - page_offset
  let section_size := if key_size < space_in_page then key_size else space_in_page
  let dstPos := page_idx * PAGE_SIZE + page_offset
  let d1 := writeBytes d dstPos (key.take section_size)
  ssk_loop key dstPos (key_size + 1) d1 section_size (key_size - section_size)

/-! ## Scan iterator and epoch resolution -/

structure ScanIter where
  offset : Nat
  found : Bool
deriving DecidableEq

/-- Loop of scan_to_epoch: walk the next links while the version epoch
stays at or below the requested epoch.  Returns the final iterator
offset.  lock_pages_to_scan_entry only acquires page mutexes and extends
the iterator's page vector, which the stream model subsumes. -/
def ste_loop (d : Nat → Nat) (epoch : Nat) :
    Nat → Nat → Nat → Nat
  | 0, lastOffset, _ => lastOffset
  | fuel + 1, lastOffset, next =>
    if next ≠ 0 then
      let off := next
      let entry_epoch := read64 d (off + ENTRY_EPOCH_OFFSET)
      if entry_epoch = epoch then off
      else if entry_epoch > epoch then lastOffset
      else ste_loop d epoch fuel off (read32 d (off + ENTRY_NEXT_OFFSET))
    else lastOffset

def scan_to_epoch (d : Nat → Nat) (iter : ScanIter) (epoch fuel : Nat) : ScanIter :=
  let entry_epoch := read64 d (iter.offset + ENTRY_EPOCH_OFFSET)
  if entry_epoch ≥ epoch then
    { iter with found := entry_epoch = epoch }
  else
    { offset := ste_loop d epoch fuel iter.offset (read32 d (iter.offset + ENTRY_NEXT_OFFSET)),
      found := true }

/-- Loop of scan_pages: linear scan of the chain by entry size.  size is
the base page's size field (the end of stream).  On a key match whose
head epoch is at or below the requested epoch, resolve with
scan_to_epoch; on a mismatch advance by the current entry's padded
size. -/
def scan_pages_loop (d : Nat → Nat) (size : Nat) (key : List Nat)
    (key_size epoch : Nat) : Nat → Nat → ScanIter
  | 0, offset => { offset := offset, found := false }
  | fuel + 1, offset =>
    if scan_keys_equal key key_size d offset then
      if read64 d (offset + ENTRY_EPOCH_OFFSET) > epoch then
        { offset := offset, found := false }
      else
        scan_to_epoch d { offset := offset, found := false } epoch (size + 1)
    else
      let entry_size := entry_size_for_key (read32 d (offset + ENTRY_KEY_SIZE_OFFSET))
      let offset' := offset + entry_size
      if offset' ≥ size then { offset := offset', found := false }
      else scan_pages_loop d size key key_size epoch fuel offset'

/-- scan_for_key composed with scan_pages.  The base page is found by
hashing; in this single-chain model the probe key's chain is the modelled
chain.  The alt_idx swap hand-off only decides which physical page backs
the start of the stream and is invisible to the byte-level logic. -/
def scan_for_key (d : Nat → Nat) (size : Nat) (key : List Nat)
    (key_size epoch : Nat) : ScanIter :=
  if size = 0 then { offset := 0, found := false }
  else scan_pages_loop d size key key_size epoch (size + 1) 0

/-! ## Keydir state and entries -/

/-- One keydir entry as passed in and out of the API
(keydir_entry_t; the struct lives in the header, fields per the spec's
entry table plus the is_tombstone output flag). -/
structure keydir_entry_t where
  file_id : Nat := 0
  total_size : Nat := 0
  epoch : Nat := 0
  offset : Nat := 0
  timestamp : Nat := 0
  next : Nat := 0
  key_size : Nat := 0
  key : List Nat := []
  is_tombstone : Bool := false
deriving DecidableEq

/-- The modelled keydir: one chain (store and its base size), the base
page's is_free flag, the global epoch counter and min_epoch.  The base
page of the modelled chain is its home memory page and is never borrowed
(is_borrowed arises only when a page serves a foreign chain), so
write_prep's borrowed-reclaim branch is statically untaken here. -/
structure Keydir where
  store : Nat → Nat
  size : Nat
  isFree : Bool
  epoch : Nat
  minEpoch : Nat

inductive KeydirGetCode where
  | FOUND
  | NOT_FOUND
deriving DecidableEq

inductive KeydirPutCode where
  | OK
  | MODIFIED
  | OUT_OF_MEMORY
deriving DecidableEq

inductive WritePrepCode where
  | WRITE_PREP_OK
  | WRITE_PREP_NO_MEM
deriving DecidableEq

/-- scan_iter_to_entry: read the found entry's fields out. -/
def scan_iter_to_entry (d : Nat → Nat) (iterOffset : Nat) : keydir_entry_t :=
  let off := read64 d (iterOffset + ENTRY_OFFSET_OFFSET)
  { file_id := read32 d (iterOffset + ENTRY_FILE_ID_OFFSET)
    total_size := read32 d (iterOffset + ENTRY_TOTAL_SIZE_OFFSET)
    epoch := read64 d (iterOffset + ENTRY_EPOCH_OFFSET)
    offset := off
    timestamp := read32 d (iterOffset + ENTRY_TIMESTAMP_OFFSET)
    is_tombstone := off = MAX_OFFSET }

/-- keydir_get. -/
def keydir_get (s : Keydir) (key : List Nat) (key_size epoch : Nat) :
    KeydirGetCode × Option keydir_entry_t :=
  let iter := scan_for_key s.store s.size key key_size epoch
  if iter.found then (KeydirGetCode.FOUND, some (scan_iter_to_entry s.store iter.offset))
  else (KeydirGetCode.NOT_FOUND, none)

/-! ## Writer helpers (field writes at the iterator's offset)

Each of these is the corresponding C function as a sequence of
scan_set_* stores, in source order. -/

/-- update_entry: in-place overwrite of the header fields. -/
def update_entry (d : Nat → Nat) (iterOffset : Nat) (e : keydir_entry_t)
    (epoch : Nat) : Nat → Nat :=
  let d := write32 d (iterOffset + ENTRY_FILE_ID_OFFSET) e.file_id
  let d := write64 d (iterOffset + ENTRY_OFFSET_OFFSET) e.offset
  let d := write32 d (iterOffset + ENTRY_TOTAL_SIZE_OFFSET) e.total_size
  let d := write32 d (iterOffset + ENTRY_TIMESTAMP_OFFSET) e.timestamp
  write64 d (iterOffset + ENTRY_EPOCH_OFFSET) epoch

/-- append_entry: write a fresh head record, key bytes included. -/
def append_entry (d : Nat → Nat) (iterOffset : Nat) (e : keydir_entry_t)
    (epoch : Nat) : Nat → Nat :=
  let d := write32 d (iterOffset + ENTRY_FILE_ID_OFFSET) e.file_id
  let d := write32 d (iterOffset + ENTRY_TOTAL_SIZE_OFFSET) e.total_size
  let d := write64 d (iterOffset + ENTRY_EPOCH_OFFSET) epoch
  let d := write64 d (iterOffset + ENTRY_OFFSET_OFFSET) e.offset
  let d := write32 d (iterOffset + ENTRY_TIMESTAMP_OFFSET) e.timestamp
  let d := write32 d (iterOffset + ENTRY_NEXT_OFFSET) e.next
  let d := write32 d (iterOffset + ENTRY_KEY_SIZE_OFFSET) e.key_size
  scan_set_key d iterOffset e.key e.key_size

/-- append_version: write a version record; key only in the head, so
key_size is set to 0 and no key bytes are written.  The next field is
not written by this function. -/
def append_version (d : Nat → Nat) (iterOffset : Nat) (e : keydir_entry_t)
    (epoch : Nat) : Nat → Nat :=
  let d := write32 d (iterOffset + ENTRY_FILE_ID_OFFSET) e.file_id
  let d := write64 d (iterOffset + ENTRY_OFFSET_OFFSET) e.offset
  let d := write32 d (iterOffset + ENTRY_TOTAL_SIZE_OFFSET) e.total_size
  let d := write32 d (iterOffset + ENTRY_TIMESTAMP_OFFSET) e.timestamp
  let d := write64 d (iterOffset + ENTRY_EPOCH_OFFSET) epoch
  write32 d (iterOffset + ENTRY_KEY_SIZE_OFFSET) 0

/-- append_deleted_version: write a tombstone version record.  As in
append_version, the next field is not written. -/
def append_deleted_version (d : Nat → Nat) (iterOffset : Nat) (epoch : Nat) :
    Nat → Nat :=
  let d := write32 d (iterOffset + ENTRY_FILE_ID_OFFSET) MAX_FILE_ID
  let d := write64 d (iterOffset + ENTRY_OFFSET_OFFSET) MAX_OFFSET
  let d := write32 d (iterOffset + ENTRY_TOTAL_SIZE_OFFSET) 0
  let d := write32 d (iterOffset + ENTRY_TIMESTAMP_OFFSET) 0
  let d := write64 d (iterOffset + ENTRY_EPOCH_OFFSET) epoch
  write32 d (iterOffset + ENTRY_KEY_SIZE_OFFSET) 0

/-- write_prep: prepare the chain to accept bytes at the iterator's
offset.  wanted_size is computed from the iterator's current offset, as
in the source.  The single-chain model's base page is its home memory
page (scan_is_first_in_memory is true) and is never borrowed, so the
borrowed-reclaim branch (body of `if base.size == 0 && base.is_borrowed`
in the source, the only source of WRITE_PREP_RESTART) is statically
untaken and page allocation always succeeds, extend_iter_chain being
implicit in the unbounded stream. -/
def write_prep (s : Keydir) (iterOffset key_size : Nat) :
    WritePrepCode × Keydir :=
  let wanted_size := iterOffset + entry_size_for_key key_size
  if wanted_size < s.size then (WritePrepCode.WRITE_PREP_NO_MEM, s)
  else
    let s := if s.isFree then { s with isFree := false } else s
    (WritePrepCode.WRITE_PREP_OK, { s with size := wanted_size })

/-- keydir_put after the scan: the body of the retry loop of keydir_put.
The retry (`continue`) runs only on WRITE_PREP_RESTART, which the model's
write_prep never returns, so the loop body executes once. -/
def keydir_put_core (s : Keydir) (e : keydir_entry_t)
    (old_file_id old_offset epoch' : Nat) (iter : ScanIter) :
    KeydirPutCode × Keydir :=
  if iter.found then
    if old_file_id ≠ 0 ∧
        (read32 s.store (iter.offset + ENTRY_FILE_ID_OFFSET) ≠ old_file_id ∨
         read64 s.store (iter.offset + ENTRY_OFFSET_OFFSET) ≠ old_offset) then
      (KeydirPutCode.MODIFIED, s)
    else if s.minEpoch > epoch' then
      (KeydirPutCode.OK, { s with store := update_entry s.store iter.offset e epoch' })
    else
      match write_prep s iter.offset 0 with
      | (WritePrepCode.WRITE_PREP_NO_MEM, s2) => (KeydirPutCode.OUT_OF_MEMORY, s2)
      | (WritePrepCode.WRITE_PREP_OK, s2) =>
        -- Source order: chain_size = base size; iter.offset = chain_size;
        -- scan_set_next(&iter, chain_size); append_version(&iter, entry).
        -- The offset is advanced BEFORE scan_set_next, so the next field
        -- is written at the new record's position.
        let chain_size := s2.size
        let iterOffset' := chain_size
        let d := write32 s2.store (iterOffset' + ENTRY_NEXT_OFFSET) chain_size
        let d := append_version d iterOffset' e epoch'
        (KeydirPutCode.OK, { s2 with store := d })
  else if old_file_id ≠ 0 then (KeydirPutCode.MODIFIED, s)
  else
    match write_prep s iter.offset e.key_size with
    | (WritePrepCode.WRITE_PREP_NO_MEM, s2) => (KeydirPutCode.OUT_OF_MEMORY, s2)
    | (WritePrepCode.WRITE_PREP_OK, s2) =>
      let d := append_entry s2.store iter.offset { e with next := 0 } epoch'
      (KeydirPutCode.OK, { s2 with store := d })

/-- keydir_put: reserve a fresh epoch, scan for the key at that epoch,
then run the branch logic. -/
def keydir_put (s : Keydir) (e : keydir_entry_t)
    (old_file_id old_offset : Nat) : KeydirPutCode × Keydir :=
  let epoch' := s.epoch + 1
  let s1 := { s with epoch := epoch' }
  let iter := scan_for_key s1.store s1.size e.key e.key_size epoch'
  keydir_put_core s1 e old_file_id old_offset epoch' iter

/-- keydir_remove after the scan: body of the retry loop of
keydir_remove.  In the version branch the source sets the previous
entry's next field BEFORE advancing the offset (the opposite order from
keydir_put). -/
def keydir_remove_core (s : Keydir) (old_file_id old_offset epoch' : Nat)
    (iter : ScanIter) : KeydirPutCode × Keydir :=
  if iter.found then
    if old_file_id ≠ 0 ∧
        (read32 s.store (iter.offset + ENTRY_FILE_ID_OFFSET) ≠ old_file_id ∨
         read64 s.store (iter.offset + ENTRY_OFFSET_OFFSET) ≠ old_offset) then
      (KeydirPutCode.MODIFIED, s)
    else if s.minEpoch > epoch' then
      let d := write64 s.store (iter.offset + ENTRY_OFFSET_OFFSET) MAX_OFFSET
      let d := write64 d (iter.offset + ENTRY_EPOCH_OFFSET) epoch'
      (KeydirPutCode.OK, { s with store := d })
    else
      match write_prep s iter.offset 0 with
      | (WritePrepCode.WRITE_PREP_NO_MEM, s2) => (KeydirPutCode.OUT_OF_MEMORY, s2)
      | (WritePrepCode.WRITE_PREP_OK, s2) =>
        let chain_size := s2.size
        let d := write32 s2.store (iter.offset + ENTRY_NEXT_OFFSET) chain_size
        let d := append_deleted_version d chain_size epoch'
        (KeydirPutCode.OK, { s2 with store := d })
  else if old_file_id ≠ 0 then (KeydirPutCode.MODIFIED, s)
  else (KeydirPutCode.OK, s)

/-- keydir_remove. -/
def keydir_remove (s : Keydir) (key : List Nat)
    (key_size old_file_id old_offset : Nat) : KeydirPutCode × Keydir :=
  let epoch' := s.epoch + 1
  let s1 := { s with epoch := epoch' }
  let iter := scan_for_key s1.store s1.size key key_size epoch'
  keydir_remove_core s1 old_file_id old_offset epoch' iter

/-! ## File statistics (update_fstats)

The fstats map is file_id to counters.  The counter record
bitcask_fstats_entry is declared in the header, which is not under src/;
modelled from the spec: live/total keys and bytes are signed aggregate
counters, oldest/newest timestamps are uint32 wall-clock seconds with 0
meaning unset, expiration_epoch is a uint64 epoch.  The khash table is
modelled as a function to Option; the optional mutex only serialises and
is dropped from the sequential model. -/

structure bitcask_fstats_entry where
  file_id : Nat
  live_keys : Int
  total_keys : Int
  live_bytes : Int
  total_bytes : Int
  oldest_tstamp : Nat
  newest_tstamp : Nat
  expiration_epoch : Nat
deriving DecidableEq

/-- The fresh entry built when the file_id is absent: memset to zero,
then expiration_epoch set to MAX_EPOCH and file_id filled in. -/
def fstats_fresh_entry (file_id : Nat) : bitcask_fstats_entry :=
  { file_id := file_id
    live_keys := 0
    total_keys := 0
    live_bytes := 0
    total_bytes := 0
    oldest_tstamp := 0
    newest_tstamp := 0
    expiration_epoch := MAX_EPOCH }

/-- The mutation update_fstats applies to the present-or-created entry,
in source order: the four increments, then the expiration-epoch minimum,
then the oldest/newest timestamp rules. -/
def fstats_apply (e : bitcask_fstats_entry) (tstamp expiration_epoch : Nat)
    (live_increment total_increment live_bytes_increment total_bytes_increment : Int) :
    bitcask_fstats_entry :=
  let e := { e with
    live_keys := e.live_keys + live_increment
    total_keys := e.total_keys + total_increment
    live_bytes := e.live_bytes + live_bytes_increment
    total_bytes := e.total_bytes + total_bytes_increment }
  let e := if expiration_epoch < e.expiration_epoch then
      { e with expiration_epoch := expiration_epoch } else e
  let e := if (tstamp ≠ 0 ∧ tstamp < e.oldest_tstamp) ∨ e.oldest_tstamp = 0 then
      { e with oldest_tstamp := tstamp } else e
  if (tstamp ≠ 0 ∧ tstamp > e.newest_tstamp) ∨ e.newest_tstamp = 0 then
    { e with newest_tstamp := tstamp } else e

/-- update_fstats. -/
def update_fstats (fstats : Nat → Option bitcask_fstats_entry)
    (file_id tstamp expiration_epoch : Nat)
    (live_increment total_increment live_bytes_increment total_bytes_increment : Int)
    (should_create : Bool) : Nat → Option bitcask_fstats_entry := fun f =>
  match fstats file_id with
  | none =>
    if should_create then
      if f = file_id then
        some (fstats_apply (fstats_fresh_entry file_id) tstamp expiration_epoch
          live_increment total_increment live_bytes_increment total_bytes_increment)
      else fstats f
    else fstats f
  | some entry =>
    if f = file_id then
      some (fstats_apply entry tstamp expiration_epoch
        live_increment total_increment live_bytes_increment total_bytes_increment)
    else fstats f

/-! ## Swap page allocation (expand_swap_file, allocate_swap_page)

Swap pages are modelled by their free-list and chain-link fields; the
data mapping, mutex and prev link play no part in the claims.  next is an
Option because a freshly malloc'd page_t has an indeterminate next until
something writes it.  Indices are swap-space indices (the same space
swap_free_list_head and next_free use in the source). -/

structure page_t where
  next_free : Nat
  next : Option Nat
deriving DecidableEq

/-- The linked swap arrays, outermost first; each array's size is its
list length. -/
abbrev SwapArrays := List (List page_t)

/-- The OS behaviour expand_swap_file depends on: whether ftruncate
succeeds and which of the new mmap calls succeed (by slot index). -/
structure SwapEnv where
  ftruncate_ok : Bool
  mmap_ok : Nat → Bool

structure SwapState where
  num_swap_pages : Nat
  swap_free_list_head : Nat
  swap_pages : SwapArrays
  swap_file_size : Nat

/-- get_swap_page: resolve a swap-space index by walking the linked
arrays, subtracting each array's size.  The source asserts the index is
valid; out of range gives none. -/
def get_swap_page (idx : Nat) : SwapArrays → Option page_t
  | [] => none
  | arr :: rest =>
    if idx < arr.length then arr.get? idx
    else get_swap_page (idx - arr.length) rest

/-- expand_swap_file.  Faithful to the source: under the grow mutex,
double-check num_swap_pages against old_num_pages; double the file by
ftruncate; mmap one page per new slot, truncating the new array at the
first failure (abort if the first slot fails); each new page's next_free
is old_num_pages + i + 1; then publish the count, link the array, and
splice: the source writes the old head into the last new page's NEXT
field (pages[size-1].next = old_head_idx), not its next_free, leaving
next_free at the placeholder old_num_pages + size. -/
def expand_swap_file (s : SwapState) (env : SwapEnv) (old_num_pages : Nat) :
    Nat × SwapState :=
  if s.num_swap_pages = old_num_pages then
    let new_num_pages := 2 * old_num_pages
    let new_file_size := new_num_pages * PAGE_SIZE
    if ¬ env.ftruncate_ok then (1, s)
    else
      let mapped := ((List.range old_num_pages).takeWhile env.mmap_ok).length
      if mapped = 0 then (1, { s with swap_file_size := new_file_size })
      else
        let new_array := (List.range mapped).map fun i =>
          ({ next_free := old_num_pages + i + 1, next := none } : page_t)
        let old_head_idx := s.swap_free_list_head
        let new_array := new_array.set (mapped - 1)
          { next_free := old_num_pages + mapped, next := some old_head_idx }
        (0, { num_swap_pages := s.num_swap_pages + mapped
              swap_free_list_head := old_num_pages
              swap_pages := s.swap_pages ++ [new_array]
              swap_file_size := new_file_size })
  else (0, s)

/-- allocate_swap_page.  Faithful to the source: when the list is empty
it calls expand_swap_file and then tests
`expand failed OR head_idx == MAX_PAGE_IDX` — but head_idx is the local
read before the expansion, which this branch has just found equal to
MAX_PAGE_IDX, so the test is always true and the retry below it is
unreachable.  On a non-empty list the CAS pop succeeds at once in the
sequential model. -/
def allocate_swap_page (env : SwapEnv) :
    Nat → SwapState → Option Nat × SwapState
  | 0, s => (none, s)
  | fuel + 1, s =>
    let num_pages := s.num_swap_pages
    let head_idx := s.swap_free_list_head
    if head_idx = MAX_PAGE_IDX then
      let res := expand_swap_file s env num_pages
      if res.1 ≠ 0 ∨ head_idx = MAX_PAGE_IDX then (none, res.2)
      else allocate_swap_page env fuel res.2
    else
      let head_page := (get_swap_page head_idx s.swap_pages).getD
        { next_free := MAX_PAGE_IDX, next := none }
      (some head_idx, { s with swap_free_list_head := head_page.next_free })

/-! ## Concrete states used by the claim theorems

All writes in the C code land in pages freshly taken from the allocator;
the model takes the all-zero store as the concrete initial page content
(one admissible content of the malloc'd / mmap'd buffers). -/

def zeroStore : Nat → Nat := fun _ => 0

/-- An empty keydir in which a snapshot reader has pinned epoch 1
(min_epoch = 1), so every later mutation must take the version-append
path rather than updating in place. -/
def kd_empty_pinned : Keydir :=
  { store := zeroStore, size := 0, isFree := true, epoch := 0, minEpoch := 1 }

/-- An empty keydir with no snapshot pinned (min_epoch = MAX_EPOCH). -/
def kd_empty_unpinned : Keydir :=
  { store := zeroStore, size := 0, isFree := true, epoch := 0, minEpoch := MAX_EPOCH }

/-- First value for key "k" (byte 107). -/
def e_k_v1 : keydir_entry_t :=
  { file_id := 1, total_size := 50, offset := 100, timestamp := 1000,
    key_size := 1, key := [107] }

/-- Second value for key "k". -/
def e_k_v2 : keydir_entry_t :=
  { file_id := 2, total_size := 60, offset := 200, timestamp := 2000,
    key_size := 1, key := [107] }

/-- put("k", v1) on the pinned empty keydir: takes epoch 1 and appends
the head record at offset 0 (record size 40, so base.size becomes 40). -/
def putK1 := keydir_put kd_empty_pinned e_k_v1 0 0

def kd_after_putK1 : Keydir := putK1.2

/-- put("k", v2) on the previous state: takes epoch 2, finds the head,
and, because min_epoch = 1 is not greater than 2, takes the
version-append branch. -/
def putK2 := keydir_put kd_after_putK1 e_k_v2 0 0

def kd_after_putK2 : Keydir := putK2.2

/-- The record keydir_get returns for "k" at epoch 2 after the two puts:
still v1 with epoch 1. -/
def entry_returned_at_epoch2 : keydir_entry_t :=
  { file_id := 1, total_size := 50, epoch := 1, offset := 100, timestamp := 1000,
    is_tombstone := false }

/-- Value for the five-byte key "hello"; its head record has padded size
48. -/
def e_hello_v1 : keydir_entry_t :=
  { file_id := 1, total_size := 50, offset := 100, timestamp := 1000,
    key_size := 5, key := [104, 101, 108, 108, 111] }

def e_hello_v2 : keydir_entry_t :=
  { file_id := 2, total_size := 60, offset := 200, timestamp := 2000,
    key_size := 5, key := [104, 101, 108, 108, 111] }

def putH1 := keydir_put kd_empty_pinned e_hello_v1 0 0

def kd_after_putH1 : Keydir := putH1.2

/-- put("k", v1) on the unpinned empty keydir, for the in-place claims:
min_epoch stays MAX_EPOCH so the next mutation updates in place. -/
def kdK_unpinned : Keydir := (keydir_put kd_empty_unpinned e_k_v1 0 0).2

/-- A store whose head entry at offset 0 carries the two-byte key
0x00 0x02 (key bytes at stream positions 36 and 37). -/
def d6 : Nat → Nat := writeBytes zeroStore 36 [0, 2]

/-- A store in which the six-byte key 1 2 3 4 5 6 of an entry at offset
4056 is stored correctly across the page boundary: bytes 1 2 3 4 at the
end of page 0 (positions 4092-4095) and bytes 5 6 at the start of page 1
(positions 4096-4097). -/
def d6b : Nat → Nat := writeBytes (writeBytes zeroStore 4092 [1, 2, 3, 4]) 4096 [5, 6]

/-- A keydir whose chain holds one non-matching entry of padded size 4056
(key_size 4020, first key byte 99), so that a fresh put appends its head
record at offset 4056 and the new key bytes start at position 4092,
straddling the page-0/page-1 boundary. -/
def kd_straddle : Keydir :=
  { store := writeBytes (write32 zeroStore 32 4020) 36 [99], size := 4056,
    isFree := false, epoch := 0, minEpoch := MAX_EPOCH }

/-- Fresh eight-byte key whose head record will straddle the boundary. -/
def e_straddle : keydir_entry_t :=
  { file_id := 1, total_size := 50, offset := 100, timestamp := 1000,
    key_size := 8, key := [1, 2, 3, 4, 5, 6, 7, 8] }

def putStraddle := keydir_put kd_straddle e_straddle 0 0

def kd_after_putStraddle : Keydir := putStraddle.2

/-- An OS environment in which ftruncate and every mmap succeed. -/
def envAllOk : SwapEnv := { ftruncate_ok := true, mmap_ok := fun _ => true }

/-- A swap state with one existing swap page and an empty swap free
list, the state in which the next allocation must expand the file. -/
def sSwapEmpty : SwapState :=
  { num_swap_pages := 1, swap_free_list_head := MAX_PAGE_IDX,
    swap_pages := [[{ next_free := MAX_PAGE_IDX, next := none }]],
    swap_file_size := 4096 }

/-- The state after a successful expansion of sSwapEmpty. -/
def sSwapExp : SwapState := (expand_swap_file sSwapEmpty envAllOk 1).2

/-- The empty fstats map. -/
def fstats_empty : Nat → Option bitcask_fstats_entry := fun _ => none

/-! ## Property bundles (the statements proved for the universally
quantified claims) -/

/-- What claim C8 asserts of a state in which the key is found, no
snapshot forbids the in-place path (min_epoch above the fresh epoch) and
any requested CAS check passes, at found offset o: the put rewrites
exactly the header fields in the byte range o to o + 28 (file_id,
total_size, epoch, offset, timestamp) with the entry's values, leaving
next, key_size, the key bytes, the base size and every other byte
unchanged; the remove rewrites exactly the range o + 8 to o + 24 (epoch
and offset), installing offset = MAX_OFFSET and the fresh epoch, and
leaves everything else unchanged. -/
def inplace_frame_spec (s : Keydir) (e : keydir_entry_t)
    (old_file_id old_offset o : Nat) : Prop :=
  let rput := keydir_put s e old_file_id old_offset
  let rrem := keydir_remove s e.key e.key_size old_file_id old_offset
  rput.1 = KeydirPutCode.OK ∧
  rput.2.size = s.size ∧
  (∀ p, p < o ∨ o + 28 ≤ p → rput.2.store p = s.store p) ∧
  read32 rput.2.store (o + ENTRY_NEXT_OFFSET) = read32 s.store (o + ENTRY_NEXT_OFFSET) ∧
  read32 rput.2.store (o + ENTRY_KEY_SIZE_OFFSET) = read32 s.store (o + ENTRY_KEY_SIZE_OFFSET) ∧
  (∀ n, readBytes rput.2.store (o + ENTRY_KEY_OFFSET) n =
    readBytes s.store (o + ENTRY_KEY_OFFSET) n) ∧
  read32 rput.2.store (o + ENTRY_FILE_ID_OFFSET) = e.file_id % 2 ^ 32 ∧
  read32 rput.2.store (o + ENTRY_TOTAL_SIZE_OFFSET) = e.total_size % 2 ^ 32 ∧
  read64 rput.2.store (o + ENTRY_EPOCH_OFFSET) = (s.epoch + 1) % 2 ^ 64 ∧
  read64 rput.2.store (o + ENTRY_OFFSET_OFFSET) = e.offset % 2 ^ 64 ∧
  read32 rput.2.store (o + ENTRY_TIMESTAMP_OFFSET) = e.timestamp % 2 ^ 32 ∧
  rrem.1 = KeydirPutCode.OK ∧
  rrem.2.size = s.size ∧
  (∀ p, p < o + 8 ∨ o + 24 ≤ p → rrem.2.store p = s.store p) ∧
  read64 rrem.2.store (o + ENTRY_OFFSET_OFFSET) = MAX_OFFSET ∧
  read64 rrem.2.store (o + ENTRY_EPOCH_OFFSET) = (s.epoch + 1) % 2 ^ 64 ∧
  read32 rrem.2.store (o + ENTRY_FILE_ID_OFFSET) = read32 s.store (o + ENTRY_FILE_ID_OFFSET) ∧
  read32 rrem.2.store (o + ENTRY_TOTAL_SIZE_OFFSET) = read32 s.store (o + ENTRY_TOTAL_SIZE_OFFSET) ∧
  read32 rrem.2.store (o + ENTRY_TIMESTAMP_OFFSET) = read32 s.store (o + ENTRY_TIMESTAMP_OFFSET) ∧
  read32 rrem.2.store (o + ENTRY_NEXT_OFFSET) = read32 s.store (o + ENTRY_NEXT_OFFSET) ∧
  read32 rrem.2.store (o + ENTRY_KEY_SIZE_OFFSET) = read32 s.store (o + ENTRY_KEY_SIZE_OFFSET) ∧
  (∀ n, readBytes rrem.2.store (o + ENTRY_KEY_OFFSET) n =
    readBytes s.store (o + ENTRY_KEY_OFFSET) n)

/-- What claim C10 asserts of a state in which the scan at the remove's
fresh epoch finds nothing for the key: the unconditional remove returns
OK and changes nothing but the consumed epoch ticket, a get for the key
at that epoch still reports NOT_FOUND, and every get result is exactly
what it was before the remove. -/
def remove_missing_noop_spec (s : Keydir) (key : List Nat)
    (key_size old_offset : Nat) : Prop :=
  keydir_remove s key key_size 0 old_offset =
    (KeydirPutCode.OK, { s with epoch := s.epoch + 1 }) ∧
  keydir_get { s with epoch := s.epoch + 1 } key key_size (s.epoch + 1) =
    (KeydirGetCode.NOT_FOUND, none) ∧
  (∀ ep, keydir_get { s with epoch := s.epoch + 1 } key key_size ep =
    keydir_get s key key_size ep)

/-- What claim C9 asserts of update_fstats: a missing file_id with
should_create unset leaves the map unchanged; other file ids are never
touched; the present entry (or, when created, the zeroed entry with
expiration_epoch = MAX_EPOCH) receives the four signed deltas, the
minimum expiration epoch, and the conditional oldest/newest timestamp
updates. -/
def update_fstats_spec (fstats : Nat → Option bitcask_fstats_entry)
    (file_id tstamp expiration_epoch : Nat) (li ti lbi tbi : Int)
    (should_create : Bool) : Prop :=
  let r := update_fstats fstats file_id tstamp expiration_epoch li ti lbi tbi should_create
  (fstats file_id = none ∧ should_create = false → r = fstats) ∧
  (∀ f, f ≠ file_id → r f = fstats f) ∧
  (∀ e0, fstats file_id = some e0 ∨
      (fstats file_id = none ∧ should_create = true ∧ e0 = fstats_fresh_entry file_id) →
    r file_id = some
      { file_id := e0.file_id
        live_keys := e0.live_keys + li
        total_keys := e0.total_keys + ti
        live_bytes := e0.live_bytes + lbi
        total_bytes := e0.total_bytes + tbi
        oldest_tstamp := if (tstamp ≠ 0 ∧ tstamp < e0.oldest_tstamp) ∨ e0.oldest_tstamp = 0
          then tstamp else e0.oldest_tstamp
        newest_tstamp := if (tstamp ≠ 0 ∧ tstamp > e0.newest_tstamp) ∨ e0.newest_tstamp = 0
          then tstamp else e0.newest_tstamp
        expiration_epoch := min e0.expiration_epoch expiration_epoch })

/-! ## Byte-store lemmas -/

theorem writeBytes_out (d : Nat → Nat) (off : Nat) (bs : List Nat) (p : Nat)
    (h : p < off ∨ off + bs.length ≤ p) : writeBytes d off bs p = d p := by
  unfold writeBytes
  rw [if_neg]
  omega

theorem encodeLE_length (n v : Nat) : (encodeLE n v).length = n := by
  induction n generalizing v with
  | zero => rfl
  | succ n ih => simp [encodeLE, ih]

theorem write32_out (d : Nat → Nat) (off v p : Nat)
    (h : p < off ∨ off + 4 ≤ p) : write32 d off v p = d p := by
  unfold write32
  rw [writeBytes_out]
  rw [encodeLE_length]
  omega

theorem write64_out (d : Nat → Nat) (off v p : Nat)
    (h : p < off ∨ off + 8 ≤ p) : write64 d off v p = d p := by
  unfold write64
  rw [writeBytes_out]
  rw [encodeLE_length]
  omega

theorem readBytes_congr (d1 d2 : Nat → Nat) (off n : Nat)
    (h : ∀ i, off ≤ i → i < off + n → d1 i = d2 i) :
    readBytes d1 off n = readBytes d2 off n := by
  induction n generalizing off with
  | zero => rfl
  | succ n ih =>
    simp only [readBytes]
    rw [h off (Nat.le_refl off) (by omega),
      ih (off + 1) (fun i h1 h2 => h i (by omega) (by omega))]

theorem writeBytes_getD (d : Nat → Nat) (off : Nat) (bs : List Nat) (k : Nat)
    (h : k < bs.length) : writeBytes d off bs (off + k) = bs.getD k 0 := by
  unfold writeBytes
  rw [if_pos (by omega)]
  congr 1
  omega

theorem readBytes_of_getD (bs : List Nat) (d : Nat → Nat) (off : Nat)
    (h : ∀ k, k < bs.length → d (off + k) = bs.getD k 0) :
    readBytes d off bs.length = bs := by
  induction bs generalizing off with
  | nil => rfl
  | cons b bs ih =>
    simp only [List.length_cons, readBytes]
    rw [show d off = b from by simpa using h 0 (by simp),
      ih (off + 1) (fun k hk => by
        have := h (k + 1) (by simp; omega)
        simpa [Nat.add_assoc, Nat.add_comm 1 k] using this)]

theorem readBytes_writeBytes_same (d : Nat → Nat) (off : Nat) (bs : List Nat) :
    readBytes (writeBytes d off bs) off bs.length = bs :=
  readBytes_of_getD bs _ off (fun k hk => writeBytes_getD d off bs k hk)

theorem decodeLE_encodeLE (n v : Nat) : decodeLE (encodeLE n v) = v % 256 ^ n := by
  induction n generalizing v with
  | zero => simp [encodeLE, decodeLE, Nat.mod_one]
  | succ n ih =>
    simp only [encodeLE, decodeLE, ih]
    rw [pow_succ']
    have h1 := Nat.mod_mul_right_mod v 256 (256 ^ n)
    have h2 := Nat.mod_mul_right_div_self v 256 (256 ^ n)
    generalize hK : (256 : Nat) ^ n = K at h1 h2 ⊢
    generalize hm : v % (256 * K) = m at h1 h2 ⊢
    generalize hq : v / 256 % K = q at h2 ⊢
    omega

theorem read32_write32_same (d : Nat → Nat) (off v : Nat) :
    read32 (write32 d off v) off = v % 2 ^ 32 := by
  unfold read32 write32
  have h := readBytes_writeBytes_same d off (encodeLE 4 v)
  rw [encodeLE_length] at h
  rw [h, decodeLE_encodeLE]
  norm_num

theorem read64_write64_same (d : Nat → Nat) (off v : Nat) :
    read64 (write64 d off v) off = v % 2 ^ 64 := by
  unfold read64 write64
  have h := readBytes_writeBytes_same d off (encodeLE 8 v)
  rw [encodeLE_length] at h
  rw [h, decodeLE_encodeLE]
  norm_num

theorem read32_congr (d1 d2 : Nat → Nat) (off : Nat)
    (h : ∀ i, off ≤ i → i < off + 4 → d1 i = d2 i) : read32 d1 off = read32 d2 off := by
  unfold read32
  rw [readBytes_congr d1 d2 off 4 h]

theorem read64_congr (d1 d2 : Nat → Nat) (off : Nat)
    (h : ∀ i, off ≤ i → i < off + 8 → d1 i = d2 i) : read64 d1 off = read64 d2 off := by
  unfold read64
  rw [readBytes_congr d1 d2 off 8 h]

theorem read32_write32_out (d : Nat → Nat) (woff v roff : Nat)
    (h : roff + 4 ≤ woff ∨ woff + 4 ≤ roff) :
    read32 (write32 d woff v) roff = read32 d roff :=
  read32_congr _ _ _ (fun i h1 h2 => write32_out _ _ _ _ (by omega))

theorem read32_write64_out (d : Nat → Nat) (woff v roff : Nat)
    (h : roff + 4 ≤ woff ∨ woff + 8 ≤ roff) :
    read32 (write64 d woff v) roff = read32 d roff :=
  read32_congr _ _ _ (fun i h1 h2 => write64_out _ _ _ _ (by omega))

theorem read64_write32_out (d : Nat → Nat) (woff v roff : Nat)
    (h : roff + 8 ≤ woff ∨ woff + 4 ≤ roff) :
    read64 (write32 d woff v) roff = read64 d roff :=
  read64_congr _ _ _ (fun i h1 h2 => write32_out _ _ _ _ (by omega))

theorem read64_write64_out (d : Nat → Nat) (woff v roff : Nat)
    (h : roff + 8 ≤ woff ∨ woff + 8 ≤ roff) :
    read64 (write64 d woff v) roff = read64 d roff :=
  read64_congr _ _ _ (fun i h1 h2 => write64_out _ _ _ _ (by omega))

theorem update_entry_out (d : Nat → Nat) (o : Nat) (e : keydir_entry_t) (ep p : Nat)
    (h : p < o ∨ o + 28 ≤ p) : update_entry d o e ep p = d p := by
  unfold update_entry
  simp only [ENTRY_FILE_ID_OFFSET, ENTRY_OFFSET_OFFSET, ENTRY_TOTAL_SIZE_OFFSET,
    ENTRY_TIMESTAMP_OFFSET, ENTRY_EPOCH_OFFSET]
  rw [write64_out _ _ _ _ (by omega), write32_out _ _ _ _ (by omega),
    write32_out _ _ _ _ (by omega), write64_out _ _ _ _ (by omega),
    write32_out _ _ _ _ (by omega)]

/-! ## Execution equations for the branches the general claims are
about -/

theorem keydir_put_inplace_eq (s : Keydir) (e : keydir_entry_t) (ofid ooff o : Nat)
    (ho : scan_for_key s.store s.size e.key e.key_size (s.epoch + 1) =
      { offset := o, found := true })
    (hmin : s.minEpoch > s.epoch + 1)
    (hcas : ofid = 0 ∨
      (read32 s.store (o + ENTRY_FILE_ID_OFFSET) = ofid ∧
       read64 s.store (o + ENTRY_OFFSET_OFFSET) = ooff)) :
    keydir_put s e ofid ooff =
      (KeydirPutCode.OK,
        { s with epoch := s.epoch + 1, store := update_entry s.store o e (s.epoch + 1) }) := by
  have hcond : ¬(ofid ≠ 0 ∧
      (read32 s.store (o + ENTRY_FILE_ID_OFFSET) ≠ ofid ∨
       read64 s.store (o + ENTRY_OFFSET_OFFSET) ≠ ooff)) := by
    rcases hcas with h | ⟨h1, h2⟩
    · simp [h]
    · simp [h1, h2]
  unfold keydir_put
  dsimp only
  rw [ho]
  unfold keydir_put_core
  dsimp only
  rw [if_pos (show (true = true) from rfl), if_neg hcond, if_pos hmin]

theorem keydir_remove_inplace_eq (s : Keydir) (key : List Nat) (ks ofid ooff o : Nat)
    (ho : scan_for_key s.store s.size key ks (s.epoch + 1) =
      { offset := o, found := true })
    (hmin : s.minEpoch > s.epoch + 1)
    (hcas : ofid = 0 ∨
      (read32 s.store (o + ENTRY_FILE_ID_OFFSET) = ofid ∧
       read64 s.store (o + ENTRY_OFFSET_OFFSET) = ooff)) :
    keydir_remove s key ks ofid ooff =
      (KeydirPutCode.OK,
        { s with
            epoch := s.epoch + 1
            store := write64 (write64 s.store (o + ENTRY_OFFSET_OFFSET) MAX_OFFSET)
              (o + ENTRY_EPOCH_OFFSET) (s.epoch + 1) }) := by
  have hcond : ¬(ofid ≠ 0 ∧
      (read32 s.store (o + ENTRY_FILE_ID_OFFSET) ≠ ofid ∨
       read64 s.store (o + ENTRY_OFFSET_OFFSET) ≠ ooff)) := by
    rcases hcas with h | ⟨h1, h2⟩
    · simp [h]
    · simp [h1, h2]
  unfold keydir_remove
  dsimp only
  rw [ho]
  unfold keydir_remove_core
  dsimp only
  rw [if_pos (show (true = true) from rfl), if_neg hcond, if_pos hmin]

theorem keydir_remove_missing_eq (s : Keydir) (key : List Nat) (ks ooff o : Nat)
    (ho : scan_for_key s.store s.size key ks (s.epoch + 1) =
      { offset := o, found := false }) :
    keydir_remove s key ks 0 ooff = (KeydirPutCode.OK, { s with epoch := s.epoch + 1 }) := by
  unfold keydir_remove
  dsimp only
  rw [ho]
  unfold keydir_remove_core
  dsimp only
  rw [if_neg (by simp), if_neg (by simp)]

theorem keydir_get_missing_eq (s : Keydir) (key : List Nat) (ks ep o : Nat)
    (ho : scan_for_key s.store s.size key ks ep = { offset := o, found := false }) :
    keydir_get s key ks ep = (KeydirGetCode.NOT_FOUND, none) := by
  unfold keydir_get
  dsimp only
  rw [ho]
  rw [if_neg (by simp)]

theorem fstats_apply_eq (e : bitcask_fstats_entry) (tstamp expiration_epoch : Nat)
    (li ti lbi tbi : Int) :
    fstats_apply e tstamp expiration_epoch li ti lbi tbi =
      { file_id := e.file_id
        live_keys := e.live_keys + li
        total_keys := e.total_keys + ti
        live_bytes := e.live_bytes + lbi
        total_bytes := e.total_bytes + tbi
        oldest_tstamp := if (tstamp ≠ 0 ∧ tstamp < e.oldest_tstamp) ∨ e.oldest_tstamp = 0
          then tstamp else e.oldest_tstamp
        newest_tstamp := if (tstamp ≠ 0 ∧ tstamp > e.newest_tstamp) ∨ e.newest_tstamp = 0
          then tstamp else e.newest_tstamp
        expiration_epoch := min e.expiration_epoch expiration_epoch } := by
  unfold fstats_apply
  dsimp only
  simp only [Nat.min_def]
  split_ifs <;> simp_all <;> omega

/-! ## Claim theorems -/

/-- C1: the claim states that for every reachable state, get at epoch E
returns the installed record for the key with the largest epoch at most
E.  The code violates it: with a snapshot pinned at epoch 1, put("k",v1)
installs at epoch 1 and put("k",v2) returns OK and installs its version
record at epoch 2 (bytes of the epoch-2 record are present at chain
offset 40), yet get("k", epoch 2) returns the epoch-1 record v1 rather
than the installed epoch-2 record, because the version-append branch of
keydir_put never links the head's next field to the new record. -/
theorem claim_C1_snapshot_visibility :
    putK1.1 = KeydirPutCode.OK ∧
    putK2.1 = KeydirPutCode.OK ∧
    read64 kd_after_putK2.store (40 + ENTRY_EPOCH_OFFSET) = 2 ∧
    read32 kd_after_putK2.store (40 + ENTRY_FILE_ID_OFFSET) = 2 ∧
    keydir_get kd_after_putK2 [107] 1 2 =
      (KeydirGetCode.FOUND, some entry_returned_at_epoch2) ∧
    entry_returned_at_epoch2.epoch = 1 ∧
    entry_returned_at_epoch2.file_id = 1 := by decide

/-- C2: the claim states that the version-append branch sets the
previous entry's next field to the append offset and writes the new
version there, so that walking next from the head reaches the new
version.  In keydir_put the offset is advanced to the new position
BEFORE scan_set_next runs, so the next value lands in the new record's
own next field (offset 40 + 28 = 68) while the head's next field at
offset 28 stays 0, and the base size is not enlarged past the old head
record (it stays 40): the new version is unreachable from the head. -/
theorem claim_C2_version_append_next :
    putK2.1 = KeydirPutCode.OK ∧
    kd_after_putK1.size = 40 ∧
    kd_after_putK2.size = 40 ∧
    read32 kd_after_putK2.store (0 + ENTRY_NEXT_OFFSET) = 0 ∧
    read32 kd_after_putK2.store (40 + ENTRY_NEXT_OFFSET) = 40 ∧
    read64 kd_after_putK2.store (40 + ENTRY_EPOCH_OFFSET) = 2 := by decide

/-- C3: the claim states that a CAS put (old_file_id nonzero) returns OK
and installs exactly when the visible entry matches (old_file_id,
old_offset).  The code violates the forward direction: after
put("hello", v1) with a snapshot pinned at epoch 1, the visible entry
carries file_id 1 and offset 100, and the scan at the CAS put's epoch
finds it, yet keydir_put with the matching old values returns
OUT_OF_MEMORY, because write_prep computes wanted_size from the found
entry's offset (0 + 40) which is below the chain size 48 of the
five-byte-key head record. -/
theorem claim_C3_cas_semantics :
    putH1.1 = KeydirPutCode.OK ∧
    kd_after_putH1.size = 48 ∧
    read32 kd_after_putH1.store (0 + ENTRY_FILE_ID_OFFSET) = 1 ∧
    read64 kd_after_putH1.store (0 + ENTRY_OFFSET_OFFSET) = 100 ∧
    scan_for_key kd_after_putH1.store kd_after_putH1.size e_hello_v2.key
      e_hello_v2.key_size (kd_after_putH1.epoch + 1) = { offset := 0, found := true } ∧
    (keydir_put kd_after_putH1 e_hello_v2 1 100).1 = KeydirPutCode.OUT_OF_MEMORY := by decide

/-- C4: the claim states that when the swap free list is empty,
allocate_swap_page expands the swap file and retries, returning a page
when the expansion succeeds.  The code violates it: inside the
empty-list branch the test after expand_swap_file includes the local
head_idx == MAX_PAGE_IDX, which is true in that branch, so the function
always returns the null page there and the retry is dead code —
whatever the expansion did. -/
theorem claim_C4_swap_alloc_no_retry (fuel : Nat) (s : SwapState) (env : SwapEnv)
    (h : s.swap_free_list_head = MAX_PAGE_IDX) :
    (allocate_swap_page env fuel s).1 = none := by
  cases fuel with
  | zero => rfl
  | succ fuel =>
    unfold allocate_swap_page
    dsimp only
    rw [if_pos h, if_pos (Or.inr h)]

/-- Witness for C4 at a concrete state: one swap page, empty free list,
fully successful OS environment.  The allocation still returns none even
though the expansion it triggered succeeded and left free page index 1
at the head of the swap free list. -/
theorem claim_C4_swap_alloc_no_retry_witness :
    sSwapEmpty.swap_free_list_head = MAX_PAGE_IDX ∧
    (allocate_swap_page envAllOk 2 sSwapEmpty).1 = none ∧
    (allocate_swap_page envAllOk 2 sSwapEmpty).2.swap_free_list_head = 1 ∧
    (allocate_swap_page envAllOk 2 sSwapEmpty).2.num_swap_pages = 2 :=
  ⟨by decide, claim_C4_swap_alloc_no_retry 2 sSwapEmpty envAllOk (by decide),
    by decide, by decide⟩

/-- C5: the claim states that a successful expansion splices the new
pages onto the swap free list, with the last new page's next_free set to
the previous head.  The code increases num_swap_pages and sets the head
to the first new index, but writes the previous head into the last new
page's chain-link field next instead of next_free: after expanding the
one-page state with an empty list, the single new page (swap index 1)
has next_free = 2 — equal to num_swap_pages, an out-of-range index, not
the previous head MAX_PAGE_IDX — and its next field holds the old
head. -/
theorem claim_C5_swap_splice :
    (expand_swap_file sSwapEmpty envAllOk 1).1 = 0 ∧
    sSwapEmpty.swap_free_list_head = MAX_PAGE_IDX ∧
    sSwapExp.num_swap_pages = 2 ∧
    sSwapExp.swap_free_list_head = 1 ∧
    get_swap_page 1 sSwapExp.swap_pages =
      some { next_free := 2, next := some MAX_PAGE_IDX } ∧
    (2 : Nat) ≠ MAX_PAGE_IDX ∧
    sSwapExp.num_swap_pages = 2 := by decide

/-- C6: the claim states that the probe key is compared to the stored
key byte-for-byte over the full length, including zero bytes and page
straddling.  The code violates both parts: strncmp stops at the first
zero byte, so probe 0x00 0x01 matches the stored key 0x00 0x02; and in
the straddling loop neither the probe pointer nor (on its first
iteration) the stored-key pointer advances, so the six-byte probe
1 2 3 4 9 9 matches the stored straddling key 1 2 3 4 5 6. -/
theorem claim_C6_key_compare :
    scan_keys_equal [0, 1] 2 d6 0 = true ∧
    readBytes d6 (0 + ENTRY_KEY_OFFSET) 2 = [0, 2] ∧
    ([0, 1] : List Nat) ≠ [0, 2] ∧
    scan_keys_equal [1, 2, 3, 4, 9, 9] 6 d6b 4056 = true ∧
    readBytes d6b (4056 + ENTRY_KEY_OFFSET) 6 = [1, 2, 3, 4, 5, 6] ∧
    ([1, 2, 3, 4, 9, 9] : List Nat) ≠ [1, 2, 3, 4, 5, 6] := by decide

/-- C7: the claim states that putting a fresh key whose head record
straddles a page boundary and getting it back succeeds, because
scan_set_key lays each page's slice down at the correct destination.
The code violates it: scan_set_key never re-seats dst, so the second
slice of the key 1 2 3 4 5 6 7 8 (bytes 5 6 7 8) overwrites the first
page's slice at positions 4092-4095 and the second page's bytes are
never written; the subsequent get of the same key at the maximum epoch
returns NOT_FOUND instead of the written record. -/
theorem claim_C7_straddling_key_roundtrip :
    putStraddle.1 = KeydirPutCode.OK ∧
    kd_after_putStraddle.size = 4104 ∧
    e_straddle.key = [1, 2, 3, 4, 5, 6, 7, 8] ∧
    readBytes kd_after_putStraddle.store (4056 + ENTRY_KEY_OFFSET) 8 =
      [5, 6, 7, 8, 0, 0, 0, 0] ∧
    keydir_get kd_after_putStraddle [1, 2, 3, 4, 5, 6, 7, 8] 8 MAX_EPOCH =
      (KeydirGetCode.NOT_FOUND, none) := by decide

/-- C8: when min_epoch exceeds the operation's fresh epoch, the key is
found and any requested CAS check passes, put overwrites exactly the
file_id, offset, total_size, timestamp and epoch fields in place and
remove writes exactly offset = MAX_OFFSET and the fresh epoch; next,
key_size, the key bytes, the base size and every byte outside those
field ranges are unchanged. -/
theorem claim_C8_inplace_frame (s : Keydir) (e : keydir_entry_t)
    (old_file_id old_offset o : Nat)
    (ho : scan_for_key s.store s.size e.key e.key_size (s.epoch + 1) =
      { offset := o, found := true })
    (hmin : s.minEpoch > s.epoch + 1)
    (hcas : old_file_id = 0 ∨
      (read32 s.store (o + ENTRY_FILE_ID_OFFSET) = old_file_id ∧
       read64 s.store (o + ENTRY_OFFSET_OFFSET) = old_offset)) :
    inplace_frame_spec s e old_file_id old_offset o := by
  have hput := keydir_put_inplace_eq s e old_file_id old_offset o ho hmin hcas
  have hrem := keydir_remove_inplace_eq s e.key e.key_size old_file_id old_offset o ho hmin hcas
  unfold inplace_frame_spec
  rw [hput, hrem]
  dsimp only
  refine ⟨rfl, rfl, ?_, ?_, ?_, ?_, ?_, ?_, ?_, ?_, ?_,
    rfl, rfl, ?_, ?_, ?_, ?_, ?_, ?_, ?_, ?_, ?_⟩
  · exact fun p hp => update_entry_out _ _ _ _ _ hp
  · exact read32_congr _ _ _ fun i h1 h2 => update_entry_out _ _ _ _ _
      (by simp only [ENTRY_NEXT_OFFSET] at h1 h2; omega)
  · exact read32_congr _ _ _ fun i h1 h2 => update_entry_out _ _ _ _ _
      (by simp only [ENTRY_KEY_SIZE_OFFSET] at h1 h2; omega)
  · exact fun n => readBytes_congr _ _ _ _ fun i h1 h2 => update_entry_out _ _ _ _ _
      (by simp only [ENTRY_KEY_OFFSET] at h1 h2; omega)
  · unfold update_entry
    simp only [ENTRY_FILE_ID_OFFSET, ENTRY_OFFSET_OFFSET, ENTRY_TOTAL_SIZE_OFFSET,
      ENTRY_TIMESTAMP_OFFSET, ENTRY_EPOCH_OFFSET]
    rw [read32_write64_out _ _ _ _ (by omega), read32_write32_out _ _ _ _ (by omega),
      read32_write32_out _ _ _ _ (by omega), read32_write64_out _ _ _ _ (by omega),
      read32_write32_same]
  · unfold update_entry
    simp only [ENTRY_FILE_ID_OFFSET, ENTRY_OFFSET_OFFSET, ENTRY_TOTAL_SIZE_OFFSET,
      ENTRY_TIMESTAMP_OFFSET, ENTRY_EPOCH_OFFSET]
    rw [read32_write64_out _ _ _ _ (by omega), read32_write32_out _ _ _ _ (by omega),
      read32_write32_same]
  · unfold update_entry
    simp only [ENTRY_FILE_ID_OFFSET, ENTRY_OFFSET_OFFSET, ENTRY_TOTAL_SIZE_OFFSET,
      ENTRY_TIMESTAMP_OFFSET, ENTRY_EPOCH_OFFSET]
    rw [read64_write64_same]
  · unfold update_entry
    simp only [ENTRY_FILE_ID_OFFSET, ENTRY_OFFSET_OFFSET, ENTRY_TOTAL_SIZE_OFFSET,
      ENTRY_TIMESTAMP_OFFSET, ENTRY_EPOCH_OFFSET]
    rw [read64_write64_out _ _ _ _ (by omega), read64_write32_out _ _ _ _ (by omega),
      read64_write32_out _ _ _ _ (by omega), read64_write64_same]
  · unfold update_entry
    simp only [ENTRY_FILE_ID_OFFSET, ENTRY_OFFSET_OFFSET, ENTRY_TOTAL_SIZE_OFFSET,
      ENTRY_TIMESTAMP_OFFSET, ENTRY_EPOCH_OFFSET]
    rw [read32_write64_out _ _ _ _ (by omega), read32_write32_same]
  · intro p hp
    simp only [ENTRY_OFFSET_OFFSET, ENTRY_EPOCH_OFFSET]
    rw [write64_out _ _ _ _ (by omega), write64_out _ _ _ _ (by omega)]
  · simp only [ENTRY_OFFSET_OFFSET, ENTRY_EPOCH_OFFSET]
    rw [read64_write64_out _ _ _ _ (by omega), read64_write64_same]
    norm_num [MAX_OFFSET]
  · simp only [ENTRY_OFFSET_OFFSET, ENTRY_EPOCH_OFFSET]
    rw [read64_write64_same]
  · exact read32_congr _ _ _ fun i h1 h2 => by
      simp only [ENTRY_FILE_ID_OFFSET] at h1 h2
      rw [write64_out _ _ _ _ (by simp only [ENTRY_EPOCH_OFFSET]; omega),
        write64_out _ _ _ _ (by simp only [ENTRY_OFFSET_OFFSET]; omega)]
  · exact read32_congr _ _ _ fun i h1 h2 => by
      simp only [ENTRY_TOTAL_SIZE_OFFSET] at h1 h2
      rw [write64_out _ _ _ _ (by simp only [ENTRY_EPOCH_OFFSET]; omega),
        write64_out _ _ _ _ (by simp only [ENTRY_OFFSET_OFFSET]; omega)]
  · exact read32_congr _ _ _ fun i h1 h2 => by
      simp only [ENTRY_TIMESTAMP_OFFSET] at h1 h2
      rw [write64_out _ _ _ _ (by simp only [ENTRY_EPOCH_OFFSET]; omega),
        write64_out _ _ _ _ (by simp only [ENTRY_OFFSET_OFFSET]; omega)]
  · exact read32_congr _ _ _ fun i h1 h2 => by
      simp only [ENTRY_NEXT_OFFSET] at h1 h2
      rw [write64_out _ _ _ _ (by simp only [ENTRY_EPOCH_OFFSET]; omega),
        write64_out _ _ _ _ (by simp only [ENTRY_OFFSET_OFFSET]; omega)]
  · exact read32_congr _ _ _ fun i h1 h2 => by
      simp only [ENTRY_KEY_SIZE_OFFSET] at h1 h2
      rw [write64_out _ _ _ _ (by simp only [ENTRY_EPOCH_OFFSET]; omega),
        write64_out _ _ _ _ (by simp only [ENTRY_OFFSET_OFFSET]; omega)]
  · exact fun n => readBytes_congr _ _ _ _ fun i h1 h2 => by
      simp only [ENTRY_KEY_OFFSET] at h1 h2
      rw [write64_out _ _ _ _ (by simp only [ENTRY_EPOCH_OFFSET]; omega),
        write64_out _ _ _ _ (by simp only [ENTRY_OFFSET_OFFSET]; omega)]

/-- Witness for C8: the keydir holding "k" with no snapshot pinned; the
plain (non-CAS) put of v2 and remove of "k" take the in-place paths. -/
theorem claim_C8_inplace_frame_witness :
    scan_for_key kdK_unpinned.store kdK_unpinned.size e_k_v2.key e_k_v2.key_size
      (kdK_unpinned.epoch + 1) = { offset := 0, found := true } ∧
    kdK_unpinned.minEpoch > kdK_unpinned.epoch + 1 ∧
    inplace_frame_spec kdK_unpinned e_k_v2 0 0 0 :=
  ⟨by decide, by decide,
    claim_C8_inplace_frame kdK_unpinned e_k_v2 0 0 0 (by decide) (by decide) (Or.inl rfl)⟩

/-- C9: update_fstats leaves the map unchanged on a missing file_id
without should_create, creates the zeroed entry with
expiration_epoch = MAX_EPOCH when permitted, adds the four signed
deltas, takes the minimum expiration epoch, and applies the conditional
oldest/newest timestamp rules; other file ids are untouched. -/
theorem claim_C9_update_fstats (fstats : Nat → Option bitcask_fstats_entry)
    (file_id tstamp expiration_epoch : Nat) (li ti lbi tbi : Int) (should_create : Bool) :
    update_fstats_spec fstats file_id tstamp expiration_epoch li ti lbi tbi should_create := by
  unfold update_fstats_spec
  refine ⟨?_, ?_, ?_⟩
  · rintro ⟨h1, h2⟩
    funext f
    simp [update_fstats, h1, h2]
  · intro f hf
    cases hm : fstats file_id <;> simp [update_fstats, hm, hf]
  · rintro e0 (hm | ⟨hm, hsc, he⟩)
    · simp [update_fstats, hm, fstats_apply_eq]
    · subst he
      simp [update_fstats, hm, hsc, fstats_apply_eq]

/-- Witness for C9 at concrete arguments: empty map, created entry. -/
theorem claim_C9_update_fstats_witness :
    update_fstats_spec fstats_empty 7 5 3 1 2 3 4 true :=
  claim_C9_update_fstats fstats_empty 7 5 3 1 2 3 4 true

/-- C10: removing a key with no visible entry at the operation's epoch,
with old_file_id = 0, returns OK (remove has no NOT_FOUND result),
changes nothing but the consumed epoch ticket, and a subsequent get for
the key still returns NOT_FOUND. -/
theorem claim_C10_remove_missing (s : Keydir) (key : List Nat)
    (key_size old_offset o : Nat)
    (ho : scan_for_key s.store s.size key key_size (s.epoch + 1) =
      { offset := o, found := false }) :
    remove_missing_noop_spec s key key_size old_offset := by
  refine ⟨keydir_remove_missing_eq s key key_size old_offset o ho, ?_, fun ep => rfl⟩
  exact keydir_get_missing_eq { s with epoch := s.epoch + 1 } key key_size (s.epoch + 1) o ho

/-- Witness for C10: removing the absent key byte 5 from the empty
keydir. -/
theorem claim_C10_remove_missing_witness :
    scan_for_key kd_empty_unpinned.store kd_empty_unpinned.size [5] 1
      (kd_empty_unpinned.epoch + 1) = { offset := 0, found := false } ∧
    remove_missing_noop_spec kd_empty_unpinned [5] 1 0 :=
  ⟨by decide, claim_C10_remove_missing kd_empty_unpinned [5] 1 0 0 (by decide)⟩
